import Mathlib

/-!
Shallow embedding of the WhatsApp MCP server (`src/index.ts`, first revision).

The program is a thin adapter: three tool handlers (`send-whatsapp-message`,
`check-whatsapp-status`, `list-recent-contacts`) that build AppleScript
automation scripts, shell out to `osascript`, and wrap results into MCP
`ToolResult` values, plus a best-effort error logger and top-level
process-event handling.

Strings are embedded as Lean `String`; the subprocess boundary is an explicit
oracle `exec : String -> ExecResult` mapping the full shell command to either
captured stdout or the stringified process error.
-/

set_option maxRecDepth 65536

namespace WhatsAppMcp

/-- Embedding of a JavaScript global single-character regex replace
`s.replace(/c/g, r)` at the level of character lists: every occurrence of the
single character `c` is replaced by the character list `r` (a global
single-character-pattern replace is exactly a per-character substitution). -/
def replaceCharL (c : Char) (r : List Char) : List Char → List Char
  | [] => []
  | x :: xs => (if x = c then r else [x]) ++ replaceCharL c r xs

/-- `String` wrapper for `replaceCharL`: `s.replace(/c/g, r)`. -/
def replaceChar (c : Char) (r : String) (s : String) : String :=
  ⟨replaceCharL c r.data s.data⟩

/-- `src/index.ts:89` (and the second replace of `formatWhatsAppMessage`,
line 54): `.replace(/"/g, '\\"')` — escape every double quote with a
backslash.  This is the only transformation applied to `contactName`. -/
def escapeDoubleQuotes (s : String) : String :=
  replaceChar '"' "\\\"" s

/-- `src/index.ts:49-55`, `formatWhatsAppMessage`: first replace every raw
newline by the AppleScript concatenation idiom `" & return & "`, then escape
every double quote (including the quotes just introduced by the idiom). -/
def formatWhatsAppMessage (message : String) : String :=
  escapeDoubleQuotes (replaceChar '\n' "\" & return & \"" message)

/-- `src/index.ts:40`: `script.replace(/'/g, "'\\''")` — the outer-shell layer:
every single quote becomes the four characters quote backslash quote quote. -/
def shellEscapeSingleQuotes (s : String) : String :=
  replaceChar (Char.ofNat 39) "\x27\\\x27\x27" s

/-- `src/index.ts:40`: the full shell command handed to the subprocess layer:
`osascript -e '<shell-escaped script>'`. -/
def osascriptCommand (script : String) : String :=
  "osascript -e \x27" ++ shellEscapeSingleQuotes script ++ "\x27"

/-- Outcome of the subprocess boundary (`execPromise`): either captured
standard output, or rejection carrying the stringified process error. -/
inductive ExecResult
  | ok (stdout : String)
  | err (errString : String)
deriving DecidableEq

/-- JavaScript template-literal stringification of an `Error` object with
message `msg`: `"Error: " + msg`. -/
def errToString (msg : String) : String := "Error: " ++ msg

/-- Embedding of JavaScript `String.prototype.toLowerCase`, per character
(the inputs compared in this program are ASCII). -/
def jsToLowerCase (s : String) : String := ⟨s.data.map Char.toLower⟩

/-- Embedding of JavaScript `String.prototype.trim`: strip whitespace from
both ends of the string. -/
def jsTrim (s : String) : String :=
  ⟨((s.data.dropWhile Char.isWhitespace).reverse.dropWhile
      Char.isWhitespace).reverse⟩

/-- `hasSubstrFrom pat l` is true when `pat` occurs contiguously in `l`. -/
def hasSubstrFrom (pat : List Char) : List Char → Bool
  | [] => pat.isEmpty
  | x :: xs => pat.isPrefixOf (x :: xs) || hasSubstrFrom pat xs

/-- `strContains s pattern` is true when `pattern` is a contiguous substring
of `s`. -/
def strContains (s pattern : String) : Bool := hasSubstrFrom pattern.data s.data

/-- `src/index.ts:38-46`, `runAppleScript`: build the `osascript` command,
run it through the subprocess oracle; on success return the trimmed stdout,
on failure throw `Error("Failed to execute AppleScript: " + error)` (the
caught process error stringified into the message). -/
def runAppleScript (script : String) (exec : String → ExecResult) :
    Except String String :=
  match exec (osascriptCommand script) with
  | .ok stdout => .ok (jsTrim stdout)
  | .err e => .error ("Failed to execute AppleScript: " ++ e)

/-- One MCP content item `{type: "text", text}`. -/
structure ContentItem where
  kind : String
  text : String
deriving DecidableEq

/-- MCP `ToolResult`: ordered content items plus the error flag (absent in
the JS object means `false`). -/
structure ToolResult where
  content : List ContentItem
  isError : Bool
deriving DecidableEq

/-- Result of running one handler: the `ToolResult` it returns together with
the list of shell commands it passed to the subprocess boundary. -/
structure RunOutcome where
  result : ToolResult
  execCalls : List String
deriving DecidableEq

def sendScriptPre : String :=
  "\n        tell application \"WhatsApp\" to activate\n        delay 1 -- Reduced from 4 to 1\n        \n        tell application \"System Events\"\n          tell process \"WhatsApp\"\n            -- Access the search field\n            try\n              -- Keyboard shortcut for search\n              keystroke \"f\" using {command down}\n              delay 0.5 -- Reduced from 2 to 0.5\n              \n              -- Clear any existing text\n              keystroke \"a\" using {command down}\n              keystroke (ASCII character 8) -- Backspace\n              delay 0.5 -- Reduced from 1.5 to 0.5\n              \n              -- Type the contact name\n              keystroke \""

def sendScriptMid : String :=
  "\"\n              \n              -- Give time for search results to populate\n              delay 1.5 -- Reduced from 6 to 1.5\n              \n              -- Contact selection method\n              keystroke (ASCII character 31) -- first down arrow\n              delay 0.3 -- Reduced from 1 to 0.3\n              keystroke (ASCII character 31) -- second down arrow\n              delay 0.3 -- Reduced from 1 to 0.3\n              keystroke return -- press enter\n              delay 0.8 -- Reduced from 3 to 0.8\n              \n              -- Type and send the message\n              keystroke \""

def sendScriptPost : String :=
  "\"\n              delay 0.5 -- Reduced from 2 to 0.5\n              \n              -- Send the message\n              keystroke return\n              delay 0.3 -- Reduced from 1 to 0.3\n              \n              return \"Message sent using optimized timing\"\n            on error errMsg\n              return \"Failed to send message: \" & errMsg\n            end try\n          end tell\n        end tell\n      "

def statusScript : String :=
  "\n        tell application \"System Events\"\n          return (exists process \"WhatsApp\")\n        end tell\n      "


/-- `src/index.ts:71-116`: the send script is the template with
`contactName.replace(/"/g, '\\"')` and `formattedMessage` interpolated. -/
def buildSendScript (contactName message : String) : String :=
  sendScriptPre ++ escapeDoubleQuotes contactName ++ sendScriptMid ++
    formatWhatsAppMessage message ++ sendScriptPost

/-- `src/index.ts:124`: success text echoes the original, unescaped inputs. -/
def sendSuccessText (contactName message : String) : String :=
  "Message sent to " ++ contactName ++ ": \"" ++ message ++ "\""

/-- `src/index.ts:65-139`, the `send-whatsapp-message` handler: format the
message, build the script, run it; on success return the confirmation text
(the script stdout `result` is never inspected); on any thrown error return
an `isError` result with the stringified error. -/
def sendWhatsAppMessage (contactName message : String)
    (exec : String → ExecResult) : RunOutcome :=
  let script := buildSendScript contactName message
  match runAppleScript script exec with
  | .ok _result =>
      { result := { content := [{ kind := "text",
                                  text := sendSuccessText contactName message }],
                    isError := false },
        execCalls := [osascriptCommand script] }
  | .error m =>
      { result := { content := [{ kind := "text",
                                  text := "Error sending message: " ++ errToString m }],
                    isError := true },
        execCalls := [osascriptCommand script] }

/-- `src/index.ts:163`. -/
def whatsAppRunningResult : ToolResult :=
  { content := [{ kind := "text", text := "WhatsApp is currently running." }],
    isError := false }

/-- `src/index.ts:164`. -/
def whatsAppNotRunningResult : ToolResult :=
  { content := [{ kind := "text",
                  text := "WhatsApp is not currently running. Please start WhatsApp before trying to send messages." }],
    isError := false }

/-- `src/index.ts:156-167`: interpretation of the probe output `result`
(the trimmed stdout returned by `runAppleScript`):
`result.toLowerCase() === 'true'` selects the running text. -/
def checkStatusResultOf (result : String) : ToolResult :=
  if jsToLowerCase result == "true" then whatsAppRunningResult
  else whatsAppNotRunningResult

/-- `src/index.ts:147-179`, the `check-whatsapp-status` handler. -/
def checkWhatsAppStatus (exec : String → ExecResult) : RunOutcome :=
  match runAppleScript statusScript exec with
  | .ok result =>
      { result := checkStatusResultOf result,
        execCalls := [osascriptCommand statusScript] }
  | .error m =>
      { result := { content := [{ kind := "text",
                                  text := "Error checking WhatsApp status: " ++ errToString m }],
                    isError := true },
        execCalls := [osascriptCommand statusScript] }

/-- `src/index.ts:193-194`: the fixed limitation text (two concatenated
string literals). -/
def listContactsText : String :=
  "Due to WhatsApp\x27s privacy protections, listing contacts programmatically is limited. " ++
    "Please specify the exact contact name when sending messages."

/-- `src/index.ts:183-210`, the `list-recent-contacts` handler: ignores the
environment entirely and returns the fixed text; its body contains no call
into the subprocess layer, so `execCalls` is empty. -/
def listRecentContacts (_exec : String → ExecResult) : RunOutcome :=
  { result := { content := [{ kind := "text", text := listContactsText }],
                isError := false },
    execCalls := [] }

/-- Behaviour of the file-system operations touched by `logError`
(`src/index.ts:9-25`): whether `fs.existsSync(logDir)` reports the directory
present, and whether `fs.mkdirSync` / `fs.appendFileSync` succeed or throw
when called. -/
structure FSBehavior where
  dirExists : Bool
  mkdirOk : Bool
  appendOk : Bool
deriving DecidableEq

/-- Observable effects of one `logError` call: console lines written, lines
appended to `error.log`, and the recursive `mkdirSync` calls made. -/
structure LogEffect where
  consoleLines : List String
  fileAppends : List String
  mkdirRecursiveCalls : List String
deriving DecidableEq

/-- `src/index.ts:10`: the unconditional console line `ERROR: <message>`. -/
def consoleErrorLine (message : String) : String := "ERROR: " ++ message

/-- `src/index.ts:20`: the appended log line
`<ISO timestamp> - <message> <JSON error or empty>\n`; `err` carries the
`JSON.stringify` serialization of a truthy error value, `none` a falsy or
absent one. -/
def logLine (now message : String) (err : Option String) : String :=
  now ++ " - " ++ message ++ " " ++ (match err with
    | some j => j
    | none => "") ++ "\n"

/-- `src/index.ts:9-25`, `logError`: write the console line, then try to
append one line to `$HOME/Library/Logs/whatsapp-mcp/error.log`, creating the
directory recursively when `existsSync` reports it absent; any failure of
`mkdirSync` or `appendFileSync` is caught and reported with a further console
line only.  The function is total: no failure propagates to the caller. -/
def logError (message : String) (err : Option String) (home now : String)
    (fs : FSBehavior) : LogEffect :=
  let dir := home ++ "/Library/Logs/whatsapp-mcp"
  if fs.dirExists then
    if fs.appendOk then
      { consoleLines := [consoleErrorLine message],
        fileAppends := [logLine now message err],
        mkdirRecursiveCalls := [] }
    else
      { consoleLines := [consoleErrorLine message, "Failed to write to log file:"],
        fileAppends := [],
        mkdirRecursiveCalls := [] }
  else
    if fs.mkdirOk then
      if fs.appendOk then
        { consoleLines := [consoleErrorLine message],
          fileAppends := [logLine now message err],
          mkdirRecursiveCalls := [dir] }
      else
        { consoleLines := [consoleErrorLine message, "Failed to write to log file:"],
          fileAppends := [],
          mkdirRecursiveCalls := [dir] }
    else
      { consoleLines := [consoleErrorLine message, "Failed to write to log file:"],
        fileAppends := [],
        mkdirRecursiveCalls := [dir] }

/-- Top-level process events and where the code handles them
(`src/index.ts:213-253`): an error thrown inside `main` (caught at line 242),
a rejection of the `main()` promise (line 250), the `uncaughtException` /
`unhandledRejection` process events (lines 234-240), the transport error
callback (line 220) and the transport close callback (line 224). -/
inductive TopLevelEvent
  | startupError (e : String)
  | mainRejection (e : String)
  | uncaughtException (e : String)
  | unhandledRejection (e : String)
  | transportError (e : String)
  | transportClose
deriving DecidableEq

/-- What the process does in response to a top-level event: log and keep
running, or schedule `process.exit(exitCode)` after `delayMs` milliseconds. -/
inductive ProcessAction
  | logAndContinue
  | delayedExit (delayMs exitCode : Nat)
deriving DecidableEq

/-- `src/index.ts:213-253`: startup failures (the `catch` in `main` and
`main().catch`) log and schedule `process.exit(1)` after 1000 ms; the
`uncaughtException` and `unhandledRejection` handlers only call `logError`
(the comment at line 233 reads: keep the process alive); the transport
error and close callbacks only log. -/
def handleTopLevelEvent : TopLevelEvent → ProcessAction
  | .startupError _ => .delayedExit 1000 1
  | .mainRejection _ => .delayedExit 1000 1
  | .uncaughtException _ => .logAndContinue
  | .unhandledRejection _ => .logAndContinue
  | .transportError _ => .logAndContinue
  | .transportClose => .logAndContinue

/-- Modelled from the spec: resolution of a backslash escape inside the
scripting-language string literal (`\x5cn`, `\x5cr`, `\x5ct` become control
characters; any other escaped character stands for itself, in particular the
escaped double quote and escaped backslash). -/
def unescapeASChar (c : Char) : Char :=
  if c = 'n' then '\n'
  else if c = 'r' then Char.ofNat 13
  else if c = 't' then Char.ofNat 9
  else c

/-- Modelled from the spec: the mock-interpreter parse of the body of a
scripting-language double-quoted string literal (the opening quote already
consumed).  A backslash escapes the next character; an unescaped double
quote terminates the literal, yielding its unescaped content and the
remaining input; a raw newline cannot appear inside the literal, and input
ending before the closing quote leaves the literal unterminated — both are
parse failures. -/
def parseASLiteralBody : List Char → Option (List Char × List Char)
  | [] => none
  | '"' :: rest => some ([], rest)
  | '\\' :: [] => none
  | '\\' :: c :: rest =>
      match parseASLiteralBody rest with
      | some (content, after) => some (unescapeASChar c :: content, after)
      | none => none
  | c :: rest =>
      if c = '\n' then none
      else
        match parseASLiteralBody rest with
        | some (content, after) => some (c :: content, after)
        | none => none

/-- Parse back the message slot of the send script: the literal typed by
`keystroke "<formatted message>"` has body `formatWhatsAppMessage message`
followed by its closing quote.  `some t` means the literal is well formed,
consumes exactly the slot, and denotes the text `t`; `none` means the
embedding broke the literal syntax. -/
def parsedMessageLiteral (message : String) : Option String :=
  match parseASLiteralBody (formatWhatsAppMessage message ++ "\"").data with
  | some (content, []) => some ⟨content⟩
  | _ => none

/-- Parse back the contact slot of the send script: the literal typed by
`keystroke "<escaped contact>"` has body `escapeDoubleQuotes contactName`
followed by its closing quote. -/
def parsedContactLiteral (contactName : String) : Option String :=
  match parseASLiteralBody (escapeDoubleQuotes contactName ++ "\"").data with
  | some (content, []) => some ⟨content⟩
  | _ => none

/-! Helper lemmas shared by the claim theorems. -/

theorem hasSubstrFrom_append_self (a e : List Char) :
    hasSubstrFrom e (a ++ e) = true := by
  induction a with
  | nil =>
      cases e with
      | nil => rfl
      | cons x xs =>
          show hasSubstrFrom (x :: xs) (x :: xs) = true
          simp [hasSubstrFrom, List.isPrefixOf_iff_prefix.mpr (List.prefix_refl _)]
  | cons y ys ih =>
      simp [hasSubstrFrom, ih]

theorem strContains_append_self (a e : String) :
    strContains (a ++ e) e = true := by
  rw [strContains, String.data_append]
  exact hasSubstrFrom_append_self a.data e.data

theorem replaceCharL_eq_join (c : Char) (r : List Char) (l : List Char) :
    replaceCharL c r l = (l.map (fun x => if x = c then r else [x])).flatten := by
  induction l with
  | nil => rfl
  | cons x xs ih => simp [replaceCharL, ih]

theorem count_replaceQuote_of_ne (a : Char) (ha : a ≠ '"') (hb : a ≠ '\\') (l : List Char) :
    (replaceCharL '"' ['\\', '"'] l).count a = l.count a := by
  induction l with
  | nil => rfl
  | cons x xs ih =>
      by_cases hx : x = '"'
      · subst hx
        simp [replaceCharL, List.count_append, List.count_cons, ih, ha, hb,
          Ne.symm ha, Ne.symm hb]
      · simp [replaceCharL, hx, List.count_append, List.count_cons, ih]

theorem count_replaceQuote_backslash (l : List Char) :
    (replaceCharL '"' ['\\', '"'] l).count '\\' =
      l.count '\\' + l.count '"' := by
  induction l with
  | nil => rfl
  | cons x xs ih =>
      simp only [replaceCharL, List.count_append, List.count_cons, ih, beq_iff_eq,
        List.count_nil]
      by_cases hx : x = '"'
      · subst hx
        simp
        omega
      · by_cases hbx : x = '\\'
        · simp [hx, hbx, List.count_cons, List.count_nil]
          omega
        · simp [hx, hbx, List.count_cons, List.count_nil]

theorem count_replaceQuote_quote (l : List Char) :
    (replaceCharL '"' ['\\', '"'] l).count '"' = l.count '"' := by
  induction l with
  | nil => rfl
  | cons x xs ih =>
      by_cases hx : x = '"'
      · subst hx
        simp [replaceCharL, List.count_append, List.count_cons, ih]
      · simp [replaceCharL, hx, List.count_append, List.count_cons, ih]

/-! Claim theorems. -/

/-- C1: the claim states that for every contact identifier and message text
(including embedded quotes, backslashes and newlines) the two-layer escaping
embeds them as syntactically valid literals and that parsing the embedded
literals back recovers exactly the original text.  The code violates this:
`formatWhatsAppMessage` replaces newlines with the concatenation idiom
BEFORE escaping double quotes, so the quotes of the idiom are escaped and
the message literal for the text a-newline-b denotes the thirteen-character
text a-quote-space-&-space-return-space-&-space-quote-b rather than
restoring the newline; a message consisting of one backslash escapes the
literal-closing quote, leaving the literal unterminated; a contact name
containing a raw newline puts that raw newline inside the literal, which the
literal syntax forbids. -/
theorem message_roundtrip_fails :
    formatWhatsAppMessage "a\nb" = "a\\\" & return & \\\"b"
    ∧ parsedMessageLiteral "a\nb" = some "a\" & return & \"b"
    ∧ parsedMessageLiteral "a\nb" ≠ some "a\nb"
    ∧ parsedMessageLiteral "\\" = none
    ∧ parsedContactLiteral "x\ny" = none := by
  refine ⟨rfl, rfl, by decide, rfl, rfl⟩

/-- C2 counterexample: the claim states that the automation script built for
contact O-apostrophe-Brien and the two-line message contains the unescaped
concatenation idiom quote-ampersand-return-ampersand-quote in place of the
raw newline.  It does not: the only occurrences carry escaped quotes
(backslash-quote), so the exact idiom sequence never occurs in the script. -/
theorem send_obrien_idiom_absent :
    strContains
      (osascriptCommand (buildSendScript "O\x27Brien" "Line one\nLine two"))
      "\" & return & \"" = false := by decide

/-- C2 amended: for contact O-apostrophe-Brien and message
Line one-newline-Line two, the full shell command contains the shell-escaped
single-quote sequence for the apostrophe, the raw newline of the message is
replaced by the ESCAPED concatenation sequence
backslash-quote ampersand return ampersand backslash-quote (no raw newline
remains in the formatted message), and the returned success text is exactly
the echo of the original, unescaped inputs. -/
theorem send_obrien_multiline :
    strContains
      (osascriptCommand (buildSendScript "O\x27Brien" "Line one\nLine two"))
      "O\x27\\\x27\x27Brien" = true
    ∧ formatWhatsAppMessage "Line one\nLine two" =
        "Line one\\\" & return & \\\"Line two"
    ∧ strContains
        (osascriptCommand (buildSendScript "O\x27Brien" "Line one\nLine two"))
        "\\\" & return & \\\"" = true
    ∧ strContains (formatWhatsAppMessage "Line one\nLine two") "\n" = false
    ∧ (sendWhatsAppMessage "O\x27Brien" "Line one\nLine two"
          (fun _ => .ok "")).result =
        { content := [{ kind := "text",
                        text := "Message sent to O\x27Brien: \"Line one\nLine two\"" }],
          isError := false } := by
  refine ⟨by decide, rfl, by decide, by decide, rfl⟩

/-- C4: whenever the subprocess oracle rejects (non-zero exit or scripting
error) with stringified error `e`, the send handler returns a `ToolResult`
with `isError = true` whose single text item contains `e`; the handler is a
total function (no exception escapes it, and it performs no process
termination action). -/
theorem send_message_error_result (contactName message e : String) :
    (sendWhatsAppMessage contactName message (fun _ => .err e)).result.isError = true
    ∧ (sendWhatsAppMessage contactName message (fun _ => .err e)).result.content =
        [{ kind := "text",
           text := "Error sending message: Error: Failed to execute AppleScript: " ++ e }]
    ∧ strContains
        ("Error sending message: Error: Failed to execute AppleScript: " ++ e)
        e = true := by
  exact ⟨rfl, rfl, strContains_append_self _ e⟩

/-- C5: the status probe output (the trimmed stdout handed back by
`runAppleScript`) is reported as running exactly when its lower-casing is
the string true; any other output — empty, false, malformed — yields the
not-running text; and the full handler on raw stdout `output` applies this
to the trimmed output. -/
theorem check_status_true_iff (output : String) :
    (checkStatusResultOf output = whatsAppRunningResult ↔
        jsToLowerCase output = "true")
    ∧ (jsToLowerCase output ≠ "true" →
        checkStatusResultOf output = whatsAppNotRunningResult)
    ∧ (checkWhatsAppStatus (fun _ => .ok output)).result =
        checkStatusResultOf (jsTrim output) := by
  refine ⟨⟨?_, ?_⟩, ?_, rfl⟩
  · intro h
    by_contra hne
    rw [checkStatusResultOf, if_neg] at h
    · exact absurd h (by decide)
    · simp [beq_iff_eq, hne]
  · intro h
    simp [checkStatusResultOf, h]
  · intro h
    rw [checkStatusResultOf, if_neg]
    simp [beq_iff_eq, h]

/-- C5 witness: concrete instances of `check_status_true_iff`. -/
theorem check_status_true_iff_witness :
    checkStatusResultOf "TRUE" = whatsAppRunningResult
    ∧ checkStatusResultOf "false" = whatsAppNotRunningResult
    ∧ checkStatusResultOf "" = whatsAppNotRunningResult := by
  refine ⟨(check_status_true_iff "TRUE").1.mpr (by decide),
    (check_status_true_iff "false").2.1 (by decide),
    (check_status_true_iff "").2.1 (by decide)⟩

/-- C6: the list-contacts handler makes no subprocess call, never errors,
and returns the same single fixed limitation text whatever the environment
(the subprocess oracle standing in for all prior state) is. -/
theorem list_contacts_fixed (exec exec' : String → ExecResult) :
    (listRecentContacts exec).execCalls = []
    ∧ (listRecentContacts exec).result.isError = false
    ∧ (listRecentContacts exec).result.content =
        [{ kind := "text", text := listContactsText }]
    ∧ listRecentContacts exec = listRecentContacts exec' :=
  ⟨rfl, rfl, rfl, rfl⟩

/-- C7 counterexample: the claim states the process exits with code 1 on any
fatal unhandled error.  A post-startup uncaught exception is handled by the
`process.on uncaughtException` listener, which only logs — the process
deliberately keeps running and no exit is scheduled. -/
theorem uncaught_exception_keeps_running :
    handleTopLevelEvent (.uncaughtException "boom") = .logAndContinue
    ∧ (ProcessAction.logAndContinue ≠ .delayedExit 1000 1) := by decide

/-- C7 amended: only startup failures — an error thrown inside `main` or a
rejection of the `main()` promise — schedule `process.exit(1)` after a
1000 ms log-flush delay; post-startup uncaught exceptions and unhandled
rejections are logged and keep the process alive, and the transport error
and close callbacks only log, with no explicit exit in the code (exit 0 on
channel close is the runtime default once the event loop drains). -/
theorem exit_code_policy (e : String) :
    handleTopLevelEvent (.startupError e) = .delayedExit 1000 1
    ∧ handleTopLevelEvent (.mainRejection e) = .delayedExit 1000 1
    ∧ handleTopLevelEvent (.uncaughtException e) = .logAndContinue
    ∧ handleTopLevelEvent (.unhandledRejection e) = .logAndContinue
    ∧ handleTopLevelEvent (.transportError e) = .logAndContinue
    ∧ handleTopLevelEvent .transportClose = .logAndContinue :=
  ⟨rfl, rfl, rfl, rfl, rfl, rfl⟩

/-- C8: `logError` always writes the console line first; it calls the
recursive mkdir exactly when the directory is absent; when the directory is
available (present or successfully created) and the append succeeds it
appends exactly one line of the form
timestamp space hyphen space message space optional-JSON-error newline;
when any file operation fails it appends nothing and adds only the
console warning line — `logError` is a total function, so no failure
propagates to its caller. -/
theorem log_error_swallows (message : String) (err : Option String)
    (home now : String) (fs : FSBehavior) :
    (logError message err home now fs).consoleLines.head? =
        some (consoleErrorLine message)
    ∧ (logError message err home now fs).mkdirRecursiveCalls =
        (if fs.dirExists then ([] : List String)
         else [home ++ "/Library/Logs/whatsapp-mcp"])
    ∧ ((fs.dirExists = true ∨ fs.mkdirOk = true) ∧ fs.appendOk = true →
        logError message err home now fs =
          { consoleLines := [consoleErrorLine message],
            fileAppends := [logLine now message err],
            mkdirRecursiveCalls :=
              if fs.dirExists then []
              else [home ++ "/Library/Logs/whatsapp-mcp"] })
    ∧ (¬ ((fs.dirExists = true ∨ fs.mkdirOk = true) ∧ fs.appendOk = true) →
        logError message err home now fs =
          { consoleLines := [consoleErrorLine message,
                             "Failed to write to log file:"],
            fileAppends := [],
            mkdirRecursiveCalls :=
              if fs.dirExists then []
              else [home ++ "/Library/Logs/whatsapp-mcp"] })
    ∧ logLine now message err =
        now ++ " - " ++ message ++ " " ++ err.getD "" ++ "\n" := by
  obtain ⟨de, mo, ao⟩ := fs
  cases err <;> cases de <;> cases mo <;> cases ao <;>
    simp [logError, logLine, consoleErrorLine, Option.getD]

/-- C8 witness: concrete instances of `log_error_swallows`: a successful
append after creating the missing directory, and a swallowed mkdir
failure. -/
theorem log_error_swallows_witness :
    logError "boom" (some "{}") "/Users/u" "2026-10-11T00:00:00.000Z"
        ⟨false, true, true⟩ =
      { consoleLines := ["ERROR: boom"],
        fileAppends := ["2026-10-11T00:00:00.000Z - boom {}\n"],
        mkdirRecursiveCalls := ["/Users/u/Library/Logs/whatsapp-mcp"] }
    ∧ logError "boom" none "/Users/u" "2026-10-11T00:00:00.000Z"
        ⟨false, false, true⟩ =
      { consoleLines := ["ERROR: boom", "Failed to write to log file:"],
        fileAppends := [],
        mkdirRecursiveCalls := ["/Users/u/Library/Logs/whatsapp-mcp"] } := by
  constructor
  · exact ((log_error_swallows "boom" (some "{}") "/Users/u"
      "2026-10-11T00:00:00.000Z" ⟨false, true, true⟩).2.2.1 (by decide)).trans
      (by decide)
  · exact ((log_error_swallows "boom" none "/Users/u"
      "2026-10-11T00:00:00.000Z" ⟨false, false, true⟩).2.2.2.1 (by decide)).trans
      (by decide)

/-- C9: when the subprocess succeeds (exit zero), the send handler returns
the non-error confirmation result whatever the script printed on stdout —
including when the AppleScript on-error branch printed
Failed to send message — because the handler never inspects the returned
stdout. -/
theorem send_success_ignores_stdout (contactName message stdout stdout' : String) :
    (sendWhatsAppMessage contactName message (fun _ => .ok stdout)).result =
      { content := [{ kind := "text",
                      text := sendSuccessText contactName message }],
        isError := false }
    ∧ sendWhatsAppMessage contactName message (fun _ => .ok stdout) =
        sendWhatsAppMessage contactName message (fun _ => .ok stdout')
    ∧ (sendWhatsAppMessage contactName message
        (fun _ => .ok "Failed to send message: something")).result.isError = false :=
  ⟨rfl, rfl, rfl⟩

/-- C10: the send script embeds the contact identifier through
`escapeDoubleQuotes` only, and the message through `formatWhatsAppMessage`
only; `escapeDoubleQuotes` maps each double quote to backslash-quote and
every other character (in particular newlines and backslashes) to itself, so
newline count is preserved, backslash count grows exactly by the number of
double quotes (existing backslashes pass through), and quote count is
preserved. -/
theorem contact_escaping_only_quotes (contactName message : String) :
    buildSendScript contactName message =
      sendScriptPre ++ escapeDoubleQuotes contactName ++ sendScriptMid ++
        formatWhatsAppMessage message ++ sendScriptPost
    ∧ (escapeDoubleQuotes contactName).data =
        (contactName.data.map
          (fun c => if c = '"' then ['\\', '"'] else [c])).flatten
    ∧ (escapeDoubleQuotes contactName).data.count '\n' =
        contactName.data.count '\n'
    ∧ (escapeDoubleQuotes contactName).data.count '\\' =
        contactName.data.count '\\' + contactName.data.count '"'
    ∧ (escapeDoubleQuotes contactName).data.count '"' =
        contactName.data.count '"' := by
  refine ⟨rfl, replaceCharL_eq_join _ _ _,
    count_replaceQuote_of_ne '\n' (by decide) (by decide) _,
    count_replaceQuote_backslash _, count_replaceQuote_quote _⟩

end WhatsAppMcp
